import Mathlib

/-!
Verification development for the shadow-database subsystem of
dynamodb-user-manager.

The Python sources under `dynamodbusermanager/` are shallowly embedded:

* `constants.py` regular expressions become decidable Boolean predicates on
  `String` (`namePatternMatch`, `fieldPatternMatch`, `numericFieldMatch`).
* The filesystem operated on by `shadow.py` becomes an explicit `FS` value:
  a table of directory entries (path to inode) and a table of inode
  contents, so that `link`, `unlink`, `rename` and `st_nlink` have their
  POSIX meaning.
* Python `set` objects stored in `Group` attributes become cells of an
  explicit `Heap`, so that the difference between mutating a set object in
  place and rebinding an attribute to a fresh set is expressible.
* Exceptions become `Except PyErr` results; functions that touch the
  filesystem return the filesystem resulting from the partial execution
  together with the outcome, mirroring the fact that a Python exception
  leaves all prior side effects in place.
* Python `datetime.date` values are represented by their signed day offset
  from `date(1970, 1, 1)` (the module's `EPOCH`); this representation is
  injective, so `date` equality coincides with offset equality.
  `EPOCH + timedelta(days = n)` is the offset `n`, and
  `(d - EPOCH).days` recovers the offset.

Every definition is translated from the repository source, bug for bug;
comments of the form `-- shadow.py:NNN` cite the embedded lines.
-/

/-! ## Python string primitives -/

/-- Characters stripped by Python `str.strip()` / `str.rstrip()` with no
arguments (ASCII whitespace; the inputs handled here are ASCII). -/
def isPySpace (c : Char) : Bool :=
  c == ' ' || c == '\t' || c == '\n' || c == '\r' ||
    c == Char.ofNat 11 || c == Char.ofNat 12

/-- Python `str.strip()`. -/
def pyStrip (s : String) : String :=
  ⟨((s.data.dropWhile isPySpace).reverse.dropWhile isPySpace).reverse⟩

/-- Python `str.rstrip()`. -/
def pyRstrip (s : String) : String :=
  ⟨(s.data.reverse.dropWhile isPySpace).reverse⟩

/-- Value of a nonempty list of decimal digits. -/
def pyDigits? (cs : List Char) : Option Nat :=
  if cs.isEmpty then none
  else cs.foldl
    (fun acc c =>
      acc.bind fun n => if c.isDigit then some (10 * n + (c.toNat - 48)) else none)
    (some 0)

/-- Python `int(str)`: optional surrounding whitespace, optional sign,
decimal digits; anything else raises `ValueError` (modelled as `none`).
(Underscore digit grouping is not used by any input of this code base.) -/
def pyInt (s : String) : Option Int :=
  match (pyStrip s).data with
  | '+' :: ds => (pyDigits? ds).map Int.ofNat
  | '-' :: ds => (pyDigits? ds).map fun n => -(n : Int)
  | ds => (pyDigits? ds).map Int.ofNat

/-- Python `str.split(sep)` for a one-character separator (the only kind
this code base uses: `":"`, `","`, `"\\n"`); `"".split(sep) == [""]`. -/
def pySplitAux : List Char → Char → List (List Char)
  | [], _ => [[]]
  | c :: rest, sep =>
    match pySplitAux rest sep with
    | [] => [[]]
    | g :: gs => if c == sep then [] :: g :: gs else (c :: g) :: gs

def pySplit (s : String) (sep : Char) : List String :=
  (pySplitAux s.data sep).map fun cs => ⟨cs⟩

/-- Splitting a Python text file into lines.  Python's line iterator keeps
the trailing newline on each line and never yields a final empty line;
every consumer in `shadow.py` immediately applies `rstrip()` and skips
blank lines, so splitting on `\n` and applying `rstrip()` to each piece
yields exactly the same sequence of processed lines. -/
def pyLines (content : String) : List String :=
  (pySplit content '\n').map pyRstrip

/-! ## constants.py -/

def UID_MIN : Int := 0
def UID_MAX : Int := 0xffffffff
def GID_MIN : Int := 0
def GID_MAX : Int := 0xffffffff
def NAME_MAX_LENGTH : Nat := 256
def REAL_NAME_MAX_LENGTH : Nat := 256

def LOCK_PASSWD : Nat := 1
def LOCK_GROUP : Nat := 2
def LOCK_GSHADOW : Nat := 4
def LOCK_SHADOW : Nat := 8
def LOCK_ALL : Nat := 15

def PASSWD_FILE : String := "/etc/passwd"
def GROUP_FILE : String := "/etc/group"
def GSHADOW_FILE : String := "/etc/gshadow"
def SHADOW_FILE : String := "/etc/shadow"

/-- First character class of `NAME_PATTERN = ^[a-zA-Z0-9_\.][-a-zA-Z0-9_\.]*$`. -/
def nameFirstChar (c : Char) : Bool :=
  ('a' ≤ c && c ≤ 'z') || ('A' ≤ c && c ≤ 'Z') || c.isDigit || c == '_' || c == '.'

/-- Subsequent character class of `NAME_PATTERN`. -/
def nameRestChar (c : Char) : Bool :=
  nameFirstChar c || c == '-'

/-- `NAME_PATTERN.match(s)` (constants.py:24).  The pattern is anchored on
both sides, so a match means: nonempty, first character in the first
class, the rest in the second class. -/
def namePatternMatch (s : String) : Bool :=
  match s.data with
  | [] => false
  | c :: rest => nameFirstChar c && rest.all nameRestChar

/-- Characters forbidden by `FIELD_PATTERN = ^[^:\n\v\f\0]*$`
(constants.py:29). -/
def forbiddenFieldChar (c : Char) : Bool :=
  c == ':' || c == '\n' || c == Char.ofNat 11 || c == Char.ofNat 12 || c == Char.ofNat 0

/-- `FIELD_PATTERN.match(s)`. -/
def fieldPatternMatch (s : String) : Bool :=
  s.data.all fun c => !forbiddenFieldChar c

/-- `FIELD_FIX.sub("-", s)` (constants.py:30): replace every maximal run of
forbidden characters with a single `-`. -/
def fieldFixAux : List Char → Bool → List Char
  | [], _ => []
  | c :: rest, inRun =>
    if forbiddenFieldChar c then
      if inRun then fieldFixAux rest true else '-' :: fieldFixAux rest true
    else c :: fieldFixAux rest false

def fieldFix (s : String) : String :=
  ⟨fieldFixAux s.data false⟩

def allDigits (cs : List Char) : Bool :=
  cs.all Char.isDigit

/-- `NUMERIC_FIELD_PATTERN.match(s)` for
`NUMERIC_FIELD_PATTERN = re_compile("r[+-]?[0-9]*$")` (constants.py:32).
The `r` intended as a raw-string prefix sits inside the pattern string, so
the compiled pattern is literally `r[+-]?[0-9]*$`: `re.match` succeeds only
when the subject starts with the letter `r` followed by an optional sign
and digits up to the end of the string. -/
def numericFieldMatch (s : String) : Bool :=
  match s.data with
  | 'r' :: rest =>
    match rest with
    | '+' :: ds => allDigits ds
    | '-' :: ds => allDigits ds
    | ds => allDigits ds
  | _ => false

/-! ## Errors

Python exception kinds raised (or caught) by the embedded code. -/

inductive PyErr where
  | eexist
  | eagain
  | eio
  | einval
  | enoent
  | valueError
  | typeError
  | nameError
  | assertError
deriving Repr, DecidableEq

/-! ## Filesystem model

Directory entries map paths to inodes; inodes carry file contents.  This
inode indirection is needed because the pidlock protocol of `shadow.py`
uses `link` and `st_nlink`.  An inode is dropped when its last directory
entry goes away. -/

structure FS where
  entries : List (String × Nat)
  inodes : List (Nat × String)
deriving Repr, DecidableEq

def FS.findIno (fs : FS) (p : String) : Option Nat :=
  (fs.entries.find? fun e => e.1 == p).map Prod.snd

def FS.pathExists (fs : FS) (p : String) : Bool :=
  (fs.findIno p).isSome

def FS.readFile (fs : FS) (p : String) : Option String :=
  (fs.findIno p).bind fun i => (fs.inodes.find? fun e => e.1 == i).map Prod.snd

/-- A fresh inode number: one past the largest in use. -/
def FS.freshIno (fs : FS) : Nat :=
  (fs.inodes.map Prod.fst).foldr max 0 + 1

/-- `os.open(p, O_CREAT | O_TRUNC | O_WRONLY)` followed by writing
`content`: truncate-and-write an existing file's inode, or create a fresh
inode. -/
def FS.createWrite (fs : FS) (p : String) (content : String) : FS :=
  match fs.findIno p with
  | some i =>
    { fs with inodes := fs.inodes.map fun e => if e.1 == i then (i, content) else e }
  | none =>
    let n := fs.freshIno
    { entries := fs.entries ++ [(p, n)], inodes := fs.inodes ++ [(n, content)] }

/-- `st_nlink` of the file at path `p`. -/
def FS.nlink (fs : FS) (p : String) : Nat :=
  match fs.findIno p with
  | some i => (fs.entries.filter fun e => e.2 == i).length
  | none => 0

/-- Drop the directory entry for `p`, freeing its inode if that was the
last link. -/
def FS.dropEntry (fs : FS) (p : String) : FS :=
  match fs.findIno p with
  | none => fs
  | some i =>
    let es := fs.entries.filter fun e => e.1 != p
    if (es.filter fun e => e.2 == i).isEmpty then
      { entries := es, inodes := fs.inodes.filter fun e => e.1 != i }
    else
      { fs with entries := es }

/-- `os.link(src, dst)`. -/
def FS.link (fs : FS) (src dst : String) : Except PyErr FS :=
  if fs.pathExists dst then .error .eexist
  else
    match fs.findIno src with
    | none => .error .enoent
    | some i => .ok { fs with entries := fs.entries ++ [(dst, i)] }

/-- `os.unlink(p)`. -/
def FS.unlink (fs : FS) (p : String) : Except PyErr FS :=
  if fs.pathExists p then .ok (fs.dropEntry p) else .error .enoent

/-- `os.unlink(p)` with the `OSError` caught and ignored. -/
def FS.unlinkIgnore (fs : FS) (p : String) : FS :=
  fs.dropEntry p

/-- `os.rename(src, dst)`: atomically replaces `dst` when it exists. -/
def FS.rename (fs : FS) (src dst : String) : Except PyErr FS :=
  match fs.findIno src with
  | none => .error .enoent
  | some i =>
    let fs1 := fs.dropEntry dst
    let es := fs1.entries.map fun e => if e.1 == src then (dst, i) else e
    .ok { fs1 with entries := es }

/-! ## ShadowDatabaseLock (shadow.py:541-883)

`alive pid` models `os.kill(pid, 0)` succeeding (the holder process
exists); when it is false, `kill` raises `ESRCH`.  `_lckpwdf` is modelled
on the `libc.lckpwdf` path (present on the target hosts): it always
succeeds and records the sentinel descriptor `-1`, exactly as
shadow.py:608-612; it touches no lock files of its own. -/

structure SDLock where
  items : Nat
  lockCount : Nat
  lckpwdfFd : Option Int
deriving Repr, DecidableEq

def lockOrder : List (Nat × String) :=
  [(LOCK_PASSWD, PASSWD_FILE), (LOCK_GROUP, GROUP_FILE),
   (LOCK_GSHADOW, GSHADOW_FILE), (LOCK_SHADOW, SHADOW_FILE)]

/-- `sdlock._lckpwdf()` (shadow.py:599-616), libc path. -/
def sdLckpwdf (st : SDLock) : Except PyErr SDLock :=
  if st.lckpwdfFd.isSome then .error .assertError
  else .ok { st with lckpwdfFd := some (-1) }

/-- `sdlock._ulckpwdf()` (shadow.py:618-635), libc path. -/
def sdUlckpwdf (st : SDLock) : Except PyErr SDLock :=
  if st.lckpwdfFd.isNone then .error .assertError
  else .ok { st with lckpwdfFd := none }

/-- The pid parse performed at shadow.py:696-701: `int(lock_pid_str)`
followed by a positivity check, `ValueError` mapping to `OSError(EIO)`. -/
def parseLockPid (s : String) : Option Int :=
  (pyInt s).bind fun p => if p ≤ 0 then none else some p

/-- Step 4 of `_lock_file_immediate` (shadow.py:723-729): verify the link
count of the pid file is 2, else raise `OSError(EIO)`. -/
def lockStep4 (pidFilename : String) (fs : FS) : FS × Except PyErr Unit :=
  if fs.nlink pidFilename != 2 then (fs, .error .eio) else (fs, .ok ())

/-- The body of the `for retry in range(2)` loop of `_lock_file_immediate`
(shadow.py:679-732).  Every control path of the body either `return`s or
raises, so iteration `retry = 1` is unreachable; with `retry = 0` the test
`retry > 0 or e.errno != EEXIST` reduces to `e.errno != EEXIST`. -/
def lockBody (alive : Int → Bool) (pidFilename lockFilename : String) (fs : FS) :
    FS × Except PyErr Unit :=
  match fs.link pidFilename lockFilename with
  | .ok fs1 => lockStep4 pidFilename fs1
  | .error e =>
    if e != .eexist then (fs, .error e)
    else
      -- shadow.py:693-694: read the existing lock file
      match fs.readFile lockFilename with
      | none => (fs, .error .enoent)
      | some s =>
        match parseLockPid s with
        | none => (fs, .error .eio)            -- shadow.py:700-701
        | some lockPid =>
          if alive lockPid then (fs, .error .eagain)  -- shadow.py:715-717
          else
            -- shadow.py:719-721: wipe the stale lock file; control then
            -- falls through to step 4 of the same iteration.
            match fs.unlink lockFilename with
            | .error e2 => (fs, .error e2)
            | .ok fs2 => lockStep4 pidFilename fs2

/-- `sdlock._lock_file_immediate(filename)` (shadow.py:637-740). -/
def lockFileImmediate (alive : Int → Bool) (pid : Nat) (st : SDLock) (fs : FS)
    (filename : String) : FS × Except PyErr SDLock :=
  if st.lockCount > 0 then
    (fs, .ok { st with lockCount := st.lockCount + 1 })  -- shadow.py:656-658
  else
    let pidFilename := filename ++ "." ++ toString pid
    let lockFilename := filename ++ ".lock"
    -- steps 1-2 (shadow.py:664-676): create the pid file and write our pid
    let fs1 := fs.createWrite pidFilename (toString pid)
    let (fs2, r) := lockBody alive pidFilename lockFilename fs1
    -- step 5, in a `finally` (shadow.py:733-740): always unlink the pid file
    let fs3 := fs2.unlinkIgnore pidFilename
    match r with
    | .ok _ => (fs3, .ok { st with lockCount := 1 })
    | .error e => (fs3, .error e)

/-- `sdlock._lock_file(filename, timeout)` (shadow.py:742-789).
`timeoutZero` is `timeout == 0` (single attempt).  With `timeout = None`
the source retries `EAGAIN` forever; `fuel` bounds that unbounded loop so
the embedding terminates: exhausting any amount of fuel with `EAGAIN`
means the source loops forever. -/
def lockFileRetry (alive : Int → Bool) (pid : Nat) (timeoutZero : Bool) (fuel : Nat)
    (st : SDLock) (fs : FS) (filename : String) : FS × Except PyErr SDLock :=
  match lockFileImmediate alive pid st fs filename with
  | (fs1, .ok st1) => (fs1, .ok st1)
  | (fs1, .error e) =>
    if e != .eagain || timeoutZero then (fs1, .error e)
    else
      match fuel with
      | 0 => (fs1, .error e)
      | fuel' + 1 => lockFileRetry alive pid timeoutZero fuel' st fs1 filename

/-- `sdlock._unlock_file(filename)` (shadow.py:791-823).  The source opens
`filename` — the shadow database file itself — instead of the
`<filename>.lock` it is validating (shadow.py:805); when `int()` then
fails on the database file's contents, the `except ValueError` handler
references the unbound local `lock_pid` (shadow.py:814) and a `NameError`
propagates before `unlink(lock_file)` is reached. -/
def unlockFile (pid : Nat) (st : SDLock) (fs : FS) (filename : String) :
    FS × Except PyErr SDLock :=
  if st.lockCount > 1 then
    (fs, .ok { st with lockCount := st.lockCount - 1 })  -- shadow.py:796-798
  else
    let lockFilename := filename ++ ".lock"
    match fs.readFile filename with                      -- shadow.py:805 (bug)
    | none => (fs, .error .enoent)
    | some content =>
      match pyInt content with
      | none => (fs, .error .nameError)                  -- shadow.py:812-815
      | some lockPid =>
        if lockPid != (pid : Int) then (fs, .error .einval)  -- shadow.py:817-819
        else
          match fs.unlink lockFilename with              -- shadow.py:822
          | .error e => (fs, .error e)
          | .ok fs1 => (fs1, .ok { st with lockCount := 0 })

/-- The rollback walk of `lock()` (shadow.py:844-860): release the
already-acquired per-file locks latest-first (`acquired` is kept in
reverse acquisition order), ignoring their errors, then `_ulckpwdf`. -/
def sdRollback (pid : Nat) (st : SDLock) (fs : FS) : List String → SDLock × FS
  | [] =>
    match sdUlckpwdf st with
    | .ok st1 => (st1, fs)
    | .error _ => (st, fs)
  | f :: rest =>
    match unlockFile pid st fs f with
    | (fs1, .ok st1) => sdRollback pid st1 fs1 rest
    | (fs1, .error _) => sdRollback pid st fs1 rest

/-- The per-file acquisition walk of `lock()` (shadow.py:840-843). -/
def sdLockGo (alive : Int → Bool) (pid : Nat) (fuel : Nat) (st : SDLock) (fs : FS) :
    List (Nat × String) → List String → FS × Except PyErr SDLock
  | [], _ => (fs, .ok st)
  | (item, filename) :: rest, acquired =>
    if st.items &&& item != 0 then
      match lockFileRetry alive pid false fuel st fs filename with
      | (fs1, .ok st1) => sdLockGo alive pid fuel st1 fs1 rest (filename :: acquired)
      | (fs1, .error e) =>
        let (_, fs2) := sdRollback pid st fs1 acquired
        (fs2, .error e)
    else
      sdLockGo alive pid fuel st fs rest acquired

/-- `sdlock.lock()` (shadow.py:825-860) with `timeout = None`. -/
def sdLockAcquire (alive : Int → Bool) (pid : Nat) (fuel : Nat) (st : SDLock) (fs : FS) :
    FS × Except PyErr SDLock :=
  match sdLckpwdf st with
  | .error e => (fs, .error e)
  | .ok st1 => sdLockGo alive pid fuel st1 fs lockOrder []

/-- The per-file release walk of `unlock()` (shadow.py:869-874):
reverse lock order, every per-file error logged and ignored. -/
def sdUnlockGo (pid : Nat) (st : SDLock) (fs : FS) :
    List (Nat × String) → FS × SDLock
  | [] => (fs, st)
  | (item, filename) :: rest =>
    if st.items &&& item != 0 then
      match unlockFile pid st fs filename with
      | (fs1, .ok st1) => sdUnlockGo pid st1 fs1 rest
      | (fs1, .error _) => sdUnlockGo pid st fs1 rest
    else
      sdUnlockGo pid st fs rest

/-- `sdlock.unlock()` (shadow.py:862-876). -/
def sdUnlock (pid : Nat) (st : SDLock) (fs : FS) : FS × Except PyErr SDLock :=
  let (fs1, st1) := sdUnlockGo pid st fs lockOrder.reverse
  match sdUlckpwdf st1 with
  | .ok st2 => (fs1, .ok st2)
  | .error e => (fs1, .error e)

/-- A freshly constructed `ShadowDatabaseLock()` (shadow.py:576-597):
`items = LOCK_ALL`, no lock held, no lckpwdf descriptor. -/
def sdLockInit : SDLock :=
  { items := LOCK_ALL, lockCount := 0, lckpwdfFd := none }

/-! ## Rotation (shadow.py:518-538) -/

/-- One file's rotation step.  The final rename (shadow.py:538) renames the
staged `<file>+` onto the backup `<file>-` — not onto `<file>` as the
docstring of `_rotate_files` describes. -/
def rotateOne (fs : FS) (filename : String) : Except PyErr FS := do
  let backupFilename := filename ++ "-"
  let newFilename := filename ++ "+"
  if !fs.pathExists newFilename then throw .assertError   -- shadow.py:532
  let fs ← if fs.pathExists backupFilename then fs.unlink backupFilename else pure fs
  let fs ← fs.rename filename backupFilename              -- shadow.py:537
  fs.rename newFilename backupFilename                    -- shadow.py:538

/-- `ShadowDatabase._rotate_files()` (shadow.py:518-538); note the file
order of shadow.py:528. -/
def rotateFiles (fs : FS) : Except PyErr FS := do
  let fs ← rotateOne fs PASSWD_FILE
  let fs ← rotateOne fs SHADOW_FILE
  let fs ← rotateOne fs GROUP_FILE
  rotateOne fs GSHADOW_FILE

/-! ## Python set objects (group.py attributes)

`Group._administrators` and `Group._members` are mutable Python `set`
objects.  To express the difference between mutating such an object in
place (`s.update(...)`, `s.add(...)`) and rebinding an attribute to a
fresh set (`self._members = set(value)`), the sets live in cells of an
explicit heap and group objects store cell references. -/

abbrev PySet := Finset String

abbrev Heap := List (Nat × PySet)

def Heap.freshCell (h : Heap) : Nat :=
  (h.map Prod.fst).foldr max 0 + 1

def Heap.readCell (h : Heap) (i : Nat) : PySet :=
  ((h.find? fun c => c.1 == i).map Prod.snd).getD ∅

def Heap.writeCell (h : Heap) (i : Nat) (v : PySet) : Heap :=
  h.map fun c => if c.1 == i then (i, v) else c

/-- `set(...)`: a fresh set object. -/
def Heap.alloc (h : Heap) (v : PySet) : Heap × Nat :=
  (h ++ [(h.freshCell, v)], h.freshCell)

/-- `s.update(v)` on the set object in cell `i`. -/
def pySetUpdate (h : Heap) (i : Nat) (v : PySet) : Heap :=
  h.writeCell i (h.readCell i ∪ v)

/-- `s.add(x)` on the set object in cell `i`. -/
def pySetAdd (h : Heap) (i : Nat) (x : String) : Heap :=
  h.writeCell i (insert x (h.readCell i))

/-! ## Group (group.py) -/

structure GroupObj where
  groupName : String
  gid : Nat
  adminsCell : Nat
  membersCell : Nat
  password : Option String
  modified : Bool
deriving Repr, DecidableEq

/-- The `administrators` property getter (group.py:115-120):
`return set(self._administrators)` — a fresh copy. -/
def groupAdministratorsGet (h : Heap) (g : GroupObj) : Heap × Nat :=
  h.alloc (h.readCell g.adminsCell)

/-- The `members` property getter (group.py:142-148):
`return set(self._members)` — a fresh copy. -/
def groupMembersGet (h : Heap) (g : GroupObj) : Heap × Nat :=
  h.alloc (h.readCell g.membersCell)

/-- The value of the administrators set (what any copy returned by the
getter contains). -/
def groupAdministratorsVal (h : Heap) (g : GroupObj) : PySet :=
  h.readCell g.adminsCell

/-- The value of the members set. -/
def groupMembersVal (h : Heap) (g : GroupObj) : PySet :=
  h.readCell g.membersCell

/-- Element validation shared by the `administrators` and `members`
setters (group.py:122-168): every username nonempty and matching
`NAME_PATTERN`, else `ValueError`. -/
def validNameSet (v : PySet) : Bool :=
  decide (∀ u ∈ v, ¬u.isEmpty ∧ namePatternMatch u)

/-- The `administrators` setter (group.py:122-140):
validate, then `self._administrators = set(value)` — the attribute is
rebound to a fresh set object. -/
def groupAdministratorsSet (h : Heap) (g : GroupObj) (v : PySet) :
    Except PyErr (Heap × GroupObj) :=
  if !validNameSet v then .error .valueError
  else
    let (h1, c) := h.alloc v
    .ok (h1, { g with adminsCell := c })

/-- The `members` setter (group.py:150-168). -/
def groupMembersSet (h : Heap) (g : GroupObj) (v : PySet) :
    Except PyErr (Heap × GroupObj) :=
  if !validNameSet v then .error .valueError
  else
    let (h1, c) := h.alloc v
    .ok (h1, { g with membersCell := c })

/-- Shared password validation (group.py:177-192 and user.py:245-261):
`None` allowed; otherwise nonempty with no `:` or newline, else
`TypeError`. -/
def validPassword (p : Option String) : Bool :=
  match p with
  | none => true
  | some s => !s.isEmpty && s.data.all fun c => !(c == ':') && !(c == '\n')

/-- Group name validation, the `group_name` setter (group.py:82-94). -/
def validName (s : String) : Bool :=
  !s.isEmpty && s.length ≤ NAME_MAX_LENGTH && namePatternMatch s

/-- `Group(...)` (group.py:29-53): attributes are assigned through their
setters in source order — `administrators` before `members`, so the
administrators cell is allocated first; `None` collections become
`set()`. -/
def mkGroup (h : Heap) (groupName : String) (gid : Nat)
    (administrators : Option PySet) (members : Option PySet)
    (password : Option String) (modified : Bool) :
    Except PyErr (Heap × GroupObj) := do
  if !validName groupName then throw .valueError
  if (gid : Int) < GID_MIN || (gid : Int) > GID_MAX then throw .valueError
  let admins := administrators.getD ∅
  if administrators.isSome && !validNameSet admins then throw .valueError
  let (h1, ac) := h.alloc admins
  let mems := members.getD ∅
  if members.isSome && !validNameSet mems then throw .valueError
  let (h2, mc) := h1.alloc mems
  if !validPassword password then throw .typeError
  return (h2, { groupName := groupName, gid := gid, adminsCell := ac,
                membersCell := mc, password := password, modified := modified })

/-! ## User (user.py)

`last_password_change_date` and `account_expire_date` hold Python `date`
values, represented by their day offset from `EPOCH`.  The six shadow
policy attributes are plain instance attributes in the source (no property
setters), so they carry no validation. -/

structure User where
  userName : String
  uid : Nat
  gid : Nat
  realName : String
  home : String
  shell : String
  password : Option String
  lastPasswordChangeDate : Option Int
  passwordAgeMinDays : Option Int
  passwordAgeMaxDays : Option Int
  passwordWarnDays : Option Int
  passwordDisableDays : Option Int
  accountExpireDate : Option Int
  modified : Bool
deriving Repr, DecidableEq

/-- The `real_name` setter's validation (user.py:185-200). -/
def validRealName (s : String) : Bool :=
  fieldPatternMatch s && s.utf8ByteSize ≤ REAL_NAME_MAX_LENGTH

/-- `User(...)` (user.py:42-90): attributes assigned through their setters
in source order.  `uid`/`gid` sit in `Nat` fields (the setters reject
anything outside `0 … 2^32 - 1`; negative candidates are range-checked by
every caller before construction). -/
def mkUser (userName : String) (uid gid : Nat) (realName home shell : String)
    (password : Option String)
    (lastPasswordChangeDate passwordAgeMinDays passwordAgeMaxDays
      passwordWarnDays passwordDisableDays accountExpireDate : Option Int)
    (modified : Bool) : Except PyErr User := do
  if !validName userName then throw .valueError
  if (uid : Int) > UID_MAX then throw .valueError
  if (gid : Int) > GID_MAX then throw .valueError
  if !validRealName realName then throw .valueError
  if !fieldPatternMatch home then throw .typeError     -- user.py:214-215
  if !fieldPatternMatch shell then throw .valueError   -- user.py:231-234
  if !validPassword password then throw .typeError
  return { userName := userName, uid := uid, gid := gid, realName := realName,
           home := home, shell := shell, password := password,
           lastPasswordChangeDate := lastPasswordChangeDate,
           passwordAgeMinDays := passwordAgeMinDays,
           passwordAgeMaxDays := passwordAgeMaxDays,
           passwordWarnDays := passwordWarnDays,
           passwordDisableDays := passwordDisableDays,
           accountExpireDate := accountExpireDate, modified := modified }

/-! ## Calendar arithmetic for `datetime.date` -/

def isLeapYear (y : Nat) : Bool :=
  y % 4 == 0 && (y % 100 != 0 || y % 400 == 0)

/-- Days in year `y` before the first day of month `m` (1-based). -/
def daysBeforeMonth (y m : Nat) : Nat :=
  let base :=
    match m with
    | 1 => 0 | 2 => 31 | 3 => 59 | 4 => 90 | 5 => 120 | 6 => 151
    | 7 => 181 | 8 => 212 | 9 => 243 | 10 => 273 | 11 => 304 | _ => 334
  if m > 2 && isLeapYear y then base + 1 else base

def daysInMonth (y m : Nat) : Nat :=
  match m with
  | 1 => 31 | 2 => if isLeapYear y then 29 else 28
  | 3 => 31 | 4 => 30 | 5 => 31 | 6 => 30 | 7 => 31 | 8 => 31
  | 9 => 30 | 10 => 31 | 11 => 30 | _ => 31

/-- The day offset of the proleptic-Gregorian date `y-m-d` from
1970-01-01 (719162 is the offset of 1970-01-01 from 0001-01-01). -/
def daysFromCivil (y m d : Nat) : Int :=
  ((365 * (y - 1) + (y - 1) / 4 - (y - 1) / 100 + (y - 1) / 400
    + daysBeforeMonth y m + (d - 1) : Nat) : Int) - 719162

/-- `datetime.date.fromisoformat`: exactly `YYYY-MM-DD` with a valid
calendar date (year 1-9999), else `ValueError` (modelled as `none`). -/
def dateFromIso (s : String) : Option Int :=
  match s.data with
  | [y1, y2, y3, y4, s1, m1, m2, s2, d1, d2] =>
    if s1 == '-' && s2 == '-' && [y1, y2, y3, y4, m1, m2, d1, d2].all Char.isDigit then
      let dv := fun (c : Char) => c.toNat - 48
      let y := 1000 * dv y1 + 100 * dv y2 + 10 * dv y3 + dv y4
      let m := 10 * dv m1 + dv m2
      let d := 10 * dv d1 + dv d2
      if 1 ≤ y && 1 ≤ m && m ≤ 12 && 1 ≤ d && d ≤ daysInMonth y m then
        some (daysFromCivil y m d)
      else none
    else none
  | _ => none

/-- `User.date_from_string` (user.py:318-328); a malformed string makes
`date.fromisoformat` raise `ValueError`. -/
def dateFromStringE (s : Option String) : Except PyErr (Option Int) :=
  match s with
  | none => .ok none
  | some s =>
    match dateFromIso s with
    | none => .error .valueError
    | some d => .ok (some d)

/-! ## DynamoDB snapshot items (user.py:330-405)

A user item in the typed document model of the snapshot source: `S` slots
are strings, `N` slots numbers, optional slots `Option`.  Date-valued
slots carry their ISO `YYYY-MM-DD` strings, converted by
`User.date_from_string` during the update. -/

structure UserItem where
  userName : String
  uid : Nat
  gid : Nat
  realName : String
  home : String
  shell : String
  password : Option String
  lastPasswordChangeDate : Option String
  passwordAgeMinDays : Option Int
  passwordAgeMaxDays : Option Int
  passwordWarnDays : Option Int
  passwordDisableDays : Option Int
  accountExpireDate : Option String
deriving Repr, DecidableEq

/-- `User.update_from_dynamodb_item(item)` (user.py:330-405).  Each field
is compared and, when different, assigned through its property setter
(which can raise) with `modified` set to `True`; the six policy fields are
plain attributes.  The return value is the final `modified` flag. -/
def updateFromDynamodbItem (u : User) (it : UserItem) : Except PyErr (User × Bool) := do
  if u.userName != it.userName then throw .valueError    -- user.py:340-341
  let u ←
    if u.uid != it.uid then
      if (it.uid : Int) > UID_MAX then throw .valueError
      else pure { u with uid := it.uid, modified := true }
    else pure u
  let u ←
    if u.gid != it.gid then
      if (it.gid : Int) > GID_MAX then throw .valueError
      else pure { u with gid := it.gid, modified := true }
    else pure u
  let u ←
    if u.realName != it.realName then
      if !validRealName it.realName then throw .valueError
      else pure { u with realName := it.realName, modified := true }
    else pure u
  let u ←
    if u.home != it.home then
      if !fieldPatternMatch it.home then throw .typeError
      else pure { u with home := it.home, modified := true }
    else pure u
  let u ←
    if u.shell != it.shell then
      if !fieldPatternMatch it.shell then throw .valueError
      else pure { u with shell := it.shell, modified := true }
    else pure u
  let u ←
    if u.password != it.password then
      if !validPassword it.password then throw .typeError
      else pure { u with password := it.password, modified := true }
    else pure u
  let lpcd ← dateFromStringE it.lastPasswordChangeDate    -- user.py:373-374
  let u :=
    if u.lastPasswordChangeDate != lpcd then
      { u with lastPasswordChangeDate := lpcd, modified := true }
    else u
  let u :=
    if u.passwordAgeMinDays != it.passwordAgeMinDays then
      { u with passwordAgeMinDays := it.passwordAgeMinDays, modified := true }
    else u
  let u :=
    if u.passwordAgeMaxDays != it.passwordAgeMaxDays then
      { u with passwordAgeMaxDays := it.passwordAgeMaxDays, modified := true }
    else u
  let u :=
    if u.passwordWarnDays != it.passwordWarnDays then
      { u with passwordWarnDays := it.passwordWarnDays, modified := true }
    else u
  let u :=
    if u.passwordDisableDays != it.passwordDisableDays then
      { u with passwordDisableDays := it.passwordDisableDays, modified := true }
    else u
  let aed ← dateFromStringE it.accountExpireDate          -- user.py:399-400
  let u :=
    if u.accountExpireDate != aed then
      { u with accountExpireDate := aed, modified := true }
    else u
  return (u, u.modified)                                  -- user.py:405

/-! ## ShadowDatabase in-memory state

`users` and `groups` model the Python dicts keyed by name: entries in
insertion order, an update replacing an entry in place (which is how dict
assignment of an existing key behaves). -/

structure DB where
  users : List User
  groups : List GroupObj
  heap : Heap
deriving DecidableEq

def emptyDB : DB := ⟨[], [], []⟩

def dbFindUser (db : DB) (name : String) : Option User :=
  db.users.find? fun u => u.userName == name

def dbFindGroup (db : DB) (name : String) : Option GroupObj :=
  db.groups.find? fun g => g.groupName == name

def dbUpsertUser (db : DB) (u : User) : DB :=
  if db.users.any fun v => v.userName == u.userName then
    { db with users := db.users.map fun v => if v.userName == u.userName then u else v }
  else { db with users := db.users ++ [u] }

def dbUpsertGroup (db : DB) (g : GroupObj) : DB :=
  if db.groups.any fun v => v.groupName == g.groupName then
    { db with groups := db.groups.map fun v => if v.groupName == g.groupName then g else v }
  else { db with groups := db.groups ++ [g] }

/-! ## Loaders (shadow.py:87-424) -/

/-- One line of `ShadowDatabase._load_passwd_file` (shadow.py:96-165).
A malformed line is skipped (the `continue` branches); a surviving line
constructs a `User` through its validating constructor. -/
def loadPasswdLine (db : DB) (line : String) : Except PyErr DB := do
  if line.isEmpty then return db
  match pySplit line ':' with
  | [userName, _password, uidStr, gidStr, realName0, home0, shell0] =>
    if !namePatternMatch userName then return db
    if userName.length > NAME_MAX_LENGTH then return db
    -- a password field other than `x` is only logged (shadow.py:124-128)
    let uid? := (pyInt uidStr).bind fun v =>
      if UID_MIN ≤ v && v ≤ UID_MAX then some v.toNat else none
    let some uid := uid? | return db
    let gid? := (pyInt gidStr).bind fun v =>
      if GID_MIN ≤ v && v ≤ GID_MAX then some v.toNat else none
    let some gid := gid? | return db
    -- a bad GECOS is repaired without marking the record modified
    let realName := if fieldPatternMatch realName0 then realName0 else fieldFix realName0
    let (home, m1) := if fieldPatternMatch home0 then (home0, false) else ("/", true)
    let (shell, m2) :=
      if fieldPatternMatch shell0 then (shell0, false) else ("/bin/false", true)
    let u ← mkUser userName uid gid realName home shell
      none none none none none none none (m1 || m2)
    return dbUpsertUser db u
  | _ => return db  -- `len(parts) != 7` (shadow.py:107-109)

def loadPasswdFile (content : String) (db : DB) : Except PyErr DB :=
  (pyLines content).foldlM loadPasswdLine db

/-- One line of `ShadowDatabase._load_group_file` (shadow.py:176-234). -/
def loadGroupLine (db : DB) (line : String) : Except PyErr DB := do
  if line.isEmpty then return db
  match pySplit line ':' with
  | [groupName, _password, gidStr, membersStr] =>
    if !namePatternMatch groupName then return db
    if groupName.length > NAME_MAX_LENGTH then return db
    let gid? := (pyInt gidStr).bind fun v =>
      if GID_MIN ≤ v && v ≤ GID_MAX then some v.toNat else none
    let some gid := gid? | return db
    let (members, modified) :=
      if !fieldPatternMatch membersStr then (∅, true)    -- shadow.py:217-221
      else
        -- shadow.py:222-230; members failing the name pattern are dropped
        -- with only a warning, `modified` stays false
        let ms := (pySplit membersStr ',').map pyStrip
        ((ms.filter namePatternMatch).toFinset, false)
    let (h1, g) ← mkGroup db.heap groupName gid none (some members) none modified
    return dbUpsertGroup { db with heap := h1 } g
  | _ => return db

def loadGroupFile (content : String) (db : DB) : Except PyErr DB :=
  (pyLines content).foldlM loadGroupLine db

/-- One line of `ShadowDatabase._load_gshadow_file` (shadow.py:249-320). -/
def loadGshadowLine (db : DB) (line : String) : Except PyErr DB := do
  if line.isEmpty then return db
  match pySplit line ':' with
  | [groupName, password, administratorsStr, membersStr] =>
    let some g := dbFindGroup db groupName | return db   -- shadow.py:266-269
    let g :=
      if !fieldPatternMatch password then
        { g with password := some "!", modified := true }  -- shadow.py:271-276
      else g
    let (h, g) ←
      if !fieldPatternMatch administratorsStr then do     -- shadow.py:278-283
        let (h1, g1) ← groupAdministratorsSet db.heap g ∅
        pure (h1, { g1 with modified := true })
      else if administratorsStr.isEmpty then do           -- shadow.py:284-285
        let (h1, g1) ← groupAdministratorsSet db.heap g ∅
        pure (h1, g1)
      else do                                             -- shadow.py:287-296
        let admins := ((pySplit administratorsStr ',').map pyStrip).toFinset
        let filteredAdmins := admins.filter fun a => namePatternMatch a
        let (h1, g1) ← groupAdministratorsSet db.heap g filteredAdmins
        pure (h1, if admins ≠ filteredAdmins then { g1 with modified := true } else g1)
    let (h, g) ←
      if !fieldPatternMatch membersStr then
        pure (h, g)                                       -- shadow.py:298-301: warning only
      else if membersStr.isEmpty then do
        let (h1, g1) ← groupMembersSet h g ∅              -- shadow.py:302-303
        pure (h1, g1)
      else
        -- shadow.py:305-312: strip, then drop badly named members with
        -- only a warning; the filtered set is what is compared next
        let members := (((pySplit membersStr ',').map pyStrip).toFinset).filter
          fun a => namePatternMatch a
        if members ≠ groupMembersVal h g then
          -- shadow.py:319: `group.members.update(members)` — the `members`
          -- getter returns a fresh copy of the stored set (group.py:148),
          -- and `update` mutates that copy:
          let (h1, tmp) := groupMembersGet h g
          let h2 := pySetUpdate h1 tmp members
          pure (h2, { g with modified := true })          -- shadow.py:320
        else pure (h, g)
    return dbUpsertGroup { db with heap := h } g
  | _ => return db

def loadGshadowFile (content : String) (db : DB) : Except PyErr DB :=
  (pyLines content).foldlM loadGshadowLine db

/-- One line of `ShadowDatabase._load_shadow_file` (shadow.py:334-424).
In each numeric-field branch the source either nulls the field (pattern
mismatch) or runs `int(...)` on a string that begins with the letter `r`
(the only strings the broken pattern accepts), which raises an uncaught
`ValueError`. -/
def loadShadowLine (db : DB) (line : String) : Except PyErr DB := do
  if line.isEmpty then return db
  let parts := pySplit line ':'
  if parts.length < 8 || parts.length > 9 then return db  -- shadow.py:348-350
  match parts.take 8 with
  | [userName, password, lastChangeStr, ageMinStr, ageMaxStr, warnStr,
     disableStr, expireStr] =>
    let some u := dbFindUser db userName | return db      -- shadow.py:357-360
    -- shadow.py:362-367: only an invalid hash is ever stored; a valid one
    -- is left unassigned
    let u :=
      if !fieldPatternMatch password then
        { u with password := some "!", modified := true }
      else u
    let u ←
      if !numericFieldMatch lastChangeStr then
        pure { u with lastPasswordChangeDate := none, modified := true }
      else
        match pyInt lastChangeStr with
        | none => throw .valueError
        | some v => pure { u with lastPasswordChangeDate := some v }
    let u ←
      if !numericFieldMatch ageMinStr then
        pure { u with passwordAgeMinDays := none, modified := true }
      else
        match pyInt ageMinStr with
        | none => throw .valueError
        | some v => pure { u with passwordAgeMinDays := some v }
    let u ←
      if !numericFieldMatch ageMaxStr then
        pure { u with passwordAgeMaxDays := none, modified := true }
      else
        match pyInt ageMaxStr with
        | none => throw .valueError
        | some v => pure { u with passwordAgeMaxDays := some v }
    let u ←
      if !numericFieldMatch warnStr then
        pure { u with passwordWarnDays := none, modified := true }
      else
        match pyInt warnStr with
        | none => throw .valueError
        | some v => pure { u with passwordWarnDays := some v }
    let u ←
      if !numericFieldMatch disableStr then
        pure { u with passwordDisableDays := none, modified := true }
      else
        match pyInt disableStr with
        | none => throw .valueError
        | some v => pure { u with passwordDisableDays := some v }
    let u ←
      if !numericFieldMatch expireStr then
        pure { u with accountExpireDate := none, modified := true }
      else
        match pyInt expireStr with
        | none => throw .valueError
        | some v => pure { u with accountExpireDate := some v }
    return dbUpsertUser db u
  | _ => return db

def loadShadowFile (content : String) (db : DB) : Except PyErr DB :=
  (pyLines content).foldlM loadShadowLine db

/-! ## Writers (shadow.py:426-516) -/

/-- Stable insertion of `x` into a list sorted by `key` (after existing
equal keys), so that sorting matches Python's stable `sorted`. -/
def insertByKey (key : α → Nat) (x : α) : List α → List α
  | [] => [x]
  | y :: ys => if key x < key y then x :: y :: ys else y :: insertByKey key x ys

/-- Python `sorted(..., key=...)` (stable). -/
def sortByKey (key : α → Nat) : List α → List α
  | [] => []
  | x :: xs => insertByKey key x (sortByKey key xs)

def optIntStr (v : Option Int) : String :=
  match v with
  | none => ""
  | some n => toString n

/-- The passwd half of `ShadowDatabase._write_user` (shadow.py:461-467). -/
def writeUserPasswdLine (u : User) : String :=
  u.userName ++ ":x:" ++ toString u.uid ++ ":" ++ toString u.gid ++ ":" ++
    u.realName ++ ":" ++ u.home ++ ":" ++ u.shell ++ "\n"

/-- The shadow half of `ShadowDatabase._write_user` (shadow.py:469-493).
The f-string at shadow.py:491-493 writes, in order: user name, password
(`!!` when absent), last-change days, min days, max days, warn days,
expire days, and a trailing colon — `password_disable_days` is never
emitted, although the format comment above it (shadow.py:469-473) lists
nine parts with `password_disable_days` before `account_expire_date`. -/
def writeUserShadowLine (u : User) : String :=
  let password := match u.password with | some p => p | none => "!!"
  u.userName ++ ":" ++ password ++ ":" ++
    optIntStr u.lastPasswordChangeDate ++ ":" ++
    optIntStr u.passwordAgeMinDays ++ ":" ++
    optIntStr u.passwordAgeMaxDays ++ ":" ++
    optIntStr u.passwordWarnDays ++ ":" ++
    optIntStr u.accountExpireDate ++ ":\n"

/-- `",".join(sorted(s))`. -/
def sortedJoin (s : PySet) : String :=
  String.intercalate "," (s.sort (· ≤ ·))

/-- The group half of `ShadowDatabase._write_group` (shadow.py:506-509);
the `members`/`administrators` getters return fresh copies whose contents
equal the stored sets. -/
def writeGroupLine (h : Heap) (g : GroupObj) : String :=
  g.groupName ++ ":x:" ++ toString g.gid ++ ":" ++
    sortedJoin (groupMembersVal h g) ++ "\n"

/-- The gshadow half of `ShadowDatabase._write_group` (shadow.py:511-516). -/
def writeGshadowLine (h : Heap) (g : GroupObj) : String :=
  let password := match g.password with | some p => p | none => "!"
  g.groupName ++ ":" ++ password ++ ":" ++
    sortedJoin (groupAdministratorsVal h g) ++ ":" ++
    sortedJoin (groupMembersVal h g) ++ "\n"

/-- `ShadowDatabase._write_user_plus_files` (shadow.py:426-438): write
`passwd+` and `shadow+` from the users sorted by uid, clearing each
written user's `modified` flag (the dict keeps its own order; the sort
only orders the output). -/
def writeUserPlusFiles (db : DB) (fs : FS) : DB × FS :=
  let sorted := sortByKey (fun u : User => u.uid) db.users
  let pContent := String.join (sorted.map writeUserPasswdLine)
  let sContent := String.join (sorted.map writeUserShadowLine)
  let fs1 := (fs.createWrite (PASSWD_FILE ++ "+") pContent).createWrite
    (SHADOW_FILE ++ "+") sContent
  ({ db with users := db.users.map fun u => { u with modified := false } }, fs1)

/-- `ShadowDatabase._write_group_plus_files` (shadow.py:440-452). -/
def writeGroupPlusFiles (db : DB) (fs : FS) : DB × FS :=
  let sorted := sortByKey (fun g : GroupObj => g.gid) db.groups
  let gContent := String.join (sorted.map (writeGroupLine db.heap))
  let gsContent := String.join (sorted.map (writeGshadowLine db.heap))
  let fs1 := (fs.createWrite (GROUP_FILE ++ "+") gContent).createWrite
    (GSHADOW_FILE ++ "+") gsContent
  ({ db with groups := db.groups.map fun g => { g with modified := false } }, fs1)

/-! ## reload / write (shadow.py:48-70) -/

/-- The body of `reload()` under the lock (shadow.py:53-60): reset the
maps, then load passwd, group, gshadow, shadow in that order.  `open` on a
missing file raises `FileNotFoundError` (`ENOENT`). -/
def dbLoadAll (fs : FS) : Except PyErr DB := do
  let some pContent := fs.readFile PASSWD_FILE | throw .enoent
  let db ← loadPasswdFile pContent emptyDB
  let some gContent := fs.readFile GROUP_FILE | throw .enoent
  let db ← loadGroupFile gContent db
  let some gsContent := fs.readFile GSHADOW_FILE | throw .enoent
  let db ← loadGshadowFile gsContent db
  let some sContent := fs.readFile SHADOW_FILE | throw .enoent
  loadShadowFile sContent db

/-- `ShadowDatabase.reload()` (shadow.py:48-60): the body runs inside
`with ShadowDatabaseLock():`, so `unlock()` runs on both exit paths, and
an exception raised by the exit handler replaces the body's outcome. -/
def shadowDbReload (alive : Int → Bool) (pid fuel : Nat) (fs : FS) :
    FS × Except PyErr DB :=
  match sdLockAcquire alive pid fuel sdLockInit fs with
  | (fs1, .error e) => (fs1, .error e)
  | (fs1, .ok st1) =>
    let r := dbLoadAll fs1
    let (fs2, ur) := sdUnlock pid st1 fs1
    match ur with
    | .error e => (fs2, .error e)
    | .ok _ => (fs2, r)

/-- `ShadowDatabase.write()` (shadow.py:62-70): under the lock, write the
four `+` files, then rotate. -/
def shadowDbWrite (alive : Int → Bool) (pid fuel : Nat) (db : DB) (fs : FS) :
    FS × Except PyErr DB :=
  match sdLockAcquire alive pid fuel sdLockInit fs with
  | (fs1, .error e) => (fs1, .error e)
  | (fs1, .ok st1) =>
    let (db1, fs2) := writeUserPlusFiles db fs1
    let (db2, fs3) := writeGroupPlusFiles db1 fs2
    match rotateFiles fs3 with
    | .error e =>
      let (fs4, ur) := sdUnlock pid st1 fs3
      match ur with
      | .error e2 => (fs4, .error e2)
      | .ok _ => (fs4, .error e)
    | .ok fs4 =>
      let (fs5, ur) := sdUnlock pid st1 fs4
      match ur with
      | .error e2 => (fs5, .error e2)
      | .ok _ => (fs5, .ok db2)

/-! ## Concrete scenarios

`alivePid p` models the process table of a host on which only the calling
process (pid 1234) is alive among pids ever written to lock files. -/

def alivePid : Int → Bool := fun p => p == 1234

/-- A clean, well-formed on-disk state: the four account files, no lock or
staging residue.  One user `u` (uid 5000) and one group `g` (gid 5000,
member `u`, consistent gshadow). -/
def fsBase : FS :=
  ⟨[(PASSWD_FILE, 1), (GROUP_FILE, 2), (GSHADOW_FILE, 3), (SHADOW_FILE, 4)],
   [(1, "u:x:5000:5000:U:/h:/bin/sh\n"),
    (2, "g:x:5000:u\n"),
    (3, "g:!::u\n"),
    (4, "u:!!:::::::\n")]⟩

/-- `fsBase` plus the `/etc/passwd.lock` file holding pid 1234 — the state
`lock()` produces from `fsBase`. -/
def fsAfterLock : FS :=
  ⟨[(PASSWD_FILE, 1), (GROUP_FILE, 2), (GSHADOW_FILE, 3), (SHADOW_FILE, 4),
    ("/etc/passwd.lock", 5)],
   [(1, "u:x:5000:5000:U:/h:/bin/sh\n"),
    (2, "g:x:5000:u\n"),
    (3, "g:!::u\n"),
    (4, "u:!!:::::::\n"),
    (5, "1234")]⟩

/-- The lock state after a successful `lock()` with `LOCK_ALL`:
`lock_count` incremented once per file. -/
def stAfterLock : SDLock := { items := 15, lockCount := 4, lckpwdfFd := some (-1) }

/-- The in-memory database `reload()` builds from `fsBase`. -/
def dbAfterReload : DB :=
  ⟨[{ userName := "u", uid := 5000, gid := 5000, realName := "U", home := "/h",
      shell := "/bin/sh", password := none, lastPasswordChangeDate := none,
      passwordAgeMinDays := none, passwordAgeMaxDays := none,
      passwordWarnDays := none, passwordDisableDays := none,
      accountExpireDate := none, modified := true }],
   [{ groupName := "g", gid := 5000, adminsCell := 3, membersCell := 2,
      password := none, modified := false }],
   [(1, ∅), (2, {"u"}), (3, ∅)]⟩

/-- Input to the rotation step: all four live files present together with
their freshly staged `+` files, no `-` backups. -/
def fsRot : FS :=
  ⟨[(PASSWD_FILE, 1), ("/etc/passwd+", 2), (SHADOW_FILE, 3), ("/etc/shadow+", 4),
    (GROUP_FILE, 5), ("/etc/group+", 6), (GSHADOW_FILE, 7), ("/etc/gshadow+", 8)],
   [(1, "pOld"), (2, "pNew"), (3, "sOld"), (4, "sNew"),
    (5, "gOld"), (6, "gNew"), (7, "hOld"), (8, "hNew")]⟩

/-- What `_rotate_files` actually produces from `fsRot`: every live path
gone, every backup path holding the freshly staged contents. -/
def fsRotAfter : FS :=
  ⟨[("/etc/passwd-", 2), ("/etc/shadow-", 4), ("/etc/group-", 6), ("/etc/gshadow-", 8)],
   [(2, "pNew"), (4, "sNew"), (6, "gNew"), (8, "hNew")]⟩

/-- A state in which `/etc/passwd.lock` exists but holds no parseable pid. -/
def fsC7 : FS :=
  ⟨[(PASSWD_FILE, 1), ("/etc/passwd.lock", 2)],
   [(1, "root:x:0:0::/root:/bin/sh\n"), (2, "garbage")]⟩

/-- The passwd entry of test scenario S2 (tests/test_shadow.py:35-49). -/
def passwdS2 : String := "testload:x:5000:5000:Test Load User:/home/testload:/bin/true\n"

/-- The matching shadow entry of S2: every numeric field a plain decimal. -/
def shadowS2 : String := "testload:!!:11323:10:2000::50:47483:\n"

/-- The record S2 expects `reload()` to produce (and the record a correct
parse of `passwdS2`/`shadowS2` would produce, with 11323 = 2001-01-01 and
47483 days = 2100-01-02). -/
def userS2 : User :=
  { userName := "testload", uid := 5000, gid := 5000, realName := "Test Load User",
    home := "/home/testload", shell := "/bin/true", password := some "!!",
    lastPasswordChangeDate := some 11323, passwordAgeMinDays := some 10,
    passwordAgeMaxDays := some 2000, passwordWarnDays := none,
    passwordDisableDays := some 50, accountExpireDate := some 47483,
    modified := false }

/-- The record the loader actually produces from `passwdS2`/`shadowS2`:
every policy field absent, the record spuriously marked modified. -/
def userS2Loaded : User :=
  { userName := "testload", uid := 5000, gid := 5000, realName := "Test Load User",
    home := "/home/testload", shell := "/bin/true", password := none,
    lastPasswordChangeDate := none, passwordAgeMinDays := none,
    passwordAgeMaxDays := none, passwordWarnDays := none,
    passwordDisableDays := none, accountExpireDate := none, modified := true }

/-- Group file line for the gshadow-union scenario: group `g1` with member
set `{alice}`. -/
def groupLineC8 : String := "g1:x:100:alice\n"

/-- Gshadow line for `g1` whose well-formed member set `{bob}` differs from
the loaded `{alice}`. -/
def gshadowLineC8 : String := "g1:!::bob\n"

/-- The group object after the two loads: `modified` raised, but
`membersCell` still the cell holding `{alice}`; the union landed in the
unreferenced copy cell 4. -/
def gC8 : GroupObj :=
  { groupName := "g1", gid := 100, adminsCell := 3, membersCell := 2,
    password := none, modified := true }

def dbC8After : DB :=
  ⟨[], [gC8], [(1, ∅), (2, {"alice"}), (3, ∅), (4, {"alice", "bob"})]⟩

/-- Well-formedness of a filesystem value: every directory entry points at
an inode present in the inode table (which makes fresh inode numbers
genuinely fresh). -/
def FS.wf (fs : FS) : Bool :=
  fs.entries.all fun e => fs.inodes.any fun ino => ino.1 == e.2

/-- Heap and group for the defensive-copy witness. -/
def hC10 : Heap := [(0, {"alice"}), (1, ∅)]

def gC10 : GroupObj :=
  { groupName := "g", gid := 5, adminsCell := 1, membersCell := 0,
    password := none, modified := false }

instance {ε α : Type} [DecidableEq ε] [DecidableEq α] : DecidableEq (Except ε α) :=
  fun a b =>
    match a, b with
    | .error x, .error y => decidable_of_iff (x = y) (by simp)
    | .ok x, .ok y => decidable_of_iff (x = y) (by simp)
    | .error _, .ok _ => isFalse (by simp)
    | .ok _, .error _ => isFalse (by simp)

/-! ## Helper lemmas -/

theorem lmap_eq_self {α : Type} (f : α → α) {l : List α}
    (hall : ∀ a ∈ l, f a = a) : l.map f = l := by
  induction l with
  | nil => rfl
  | cons x xs ih =>
    rw [List.map_cons, hall x (List.mem_cons_self x xs),
      ih fun a ha => hall a (List.mem_cons_of_mem x ha)]

theorem lmem_le_foldr_max {l : List Nat} {a : Nat} (h : a ∈ l) :
    a ≤ l.foldr max 0 := by
  induction l with
  | nil => simp at h
  | cons x xs ih =>
    rcases List.mem_cons.mp h with rfl | hmem
    · exact le_max_left _ _
    · exact le_trans (ih hmem) (le_max_right _ _)

/-- Every cell id present in a heap is strictly below the fresh id. -/
theorem heap_mem_lt_fresh {h : Heap} {c : Nat × PySet} (hc : c ∈ h) :
    c.1 < h.freshCell := by
  have : c.1 ∈ h.map Prod.fst := List.mem_map_of_mem Prod.fst hc
  exact Nat.lt_succ_of_le (lmem_le_foldr_max this)

/-- Mutating a freshly allocated copy cell leaves every pre-existing cell
unchanged. -/
theorem readCell_writeCell_alloc (h : Heap) (i : Nat) (v w : PySet)
    (hm : i ∈ h.map Prod.fst) :
    Heap.readCell (Heap.writeCell (h.alloc v).1 (h.alloc v).2 w) i = h.readCell i := by
  have hmap : (h.map fun c => if c.1 == h.freshCell then (h.freshCell, w) else c) = h := by
    apply lmap_eq_self
    intro c hc
    have := heap_mem_lt_fresh hc
    simp [Nat.ne_of_lt this]
  have hsome : (h.find? fun c => c.1 == i).isSome := by
    rw [List.find?_isSome]
    obtain ⟨c, hc, hfst⟩ := List.mem_map.mp hm
    exact ⟨c, hc, by simp [hfst]⟩
  obtain ⟨a, hfa⟩ := Option.isSome_iff_exists.mp hsome
  simp only [Heap.writeCell, Heap.alloc, List.map_append, hmap, List.map_cons,
    List.map_nil, beq_self_eq_true, if_pos]
  simp only [Heap.readCell, FS.findIno, List.find?_append, hfa, Option.or_some]

/-! ## Claim theorems -/

/-- C10: the `Group.members` and `Group.administrators` getters each
return a fresh copy of the group's internal set, so mutating the set
object they return (with `update` or `add`) never changes the group's
stored members or administrators. -/
theorem group_set_getters_return_copies (h : Heap) (g : GroupObj) (s : PySet) (x : String)
    (hm : g.membersCell ∈ h.map Prod.fst) (ha : g.adminsCell ∈ h.map Prod.fst) :
    Heap.readCell (pySetUpdate (groupMembersGet h g).1 (groupMembersGet h g).2 s)
        g.membersCell = groupMembersVal h g
    ∧ Heap.readCell (pySetAdd (groupMembersGet h g).1 (groupMembersGet h g).2 x)
        g.membersCell = groupMembersVal h g
    ∧ Heap.readCell (pySetUpdate (groupAdministratorsGet h g).1
        (groupAdministratorsGet h g).2 s) g.adminsCell = groupAdministratorsVal h g
    ∧ Heap.readCell (pySetAdd (groupAdministratorsGet h g).1
        (groupAdministratorsGet h g).2 x) g.adminsCell = groupAdministratorsVal h g := by
  refine ⟨?_, ?_, ?_, ?_⟩ <;>
    first
      | exact readCell_writeCell_alloc h g.membersCell _ _ hm
      | exact readCell_writeCell_alloc h g.adminsCell _ _ ha

/-- C10 witness: on a concrete heap and group, calling `update` on the set
returned by the `members` getter leaves the stored members `{alice}`
intact. -/
theorem group_set_getters_return_copies_witness :
    gC10.membersCell ∈ hC10.map Prod.fst
    ∧ Heap.readCell (pySetUpdate (groupMembersGet hC10 gC10).1
        (groupMembersGet hC10 gC10).2 {"bob"}) gC10.membersCell = groupMembersVal hC10 gC10 :=
  ⟨by decide,
   (group_set_getters_return_copies hC10 gC10 {"bob"} "bob" (by decide) (by decide)).1⟩

/-- C1: after `_rotate_files` on a state holding all four live files and
their staged `+` files, every live path is GONE (not updated): the final
rename of shadow.py:538 moves `<file>+` onto `<file>-`, so the backup —
not the live path — receives the staged contents, contradicting the
specified postcondition that `<file>` contain what was staged in `<file>+`
and `<file>-` what was previously live. -/
theorem rotate_moves_staging_onto_backup :
    rotateFiles fsRot = .ok fsRotAfter
    ∧ fsRotAfter.readFile PASSWD_FILE = none
    ∧ fsRotAfter.readFile (PASSWD_FILE ++ "-") = some "pNew"
    ∧ fsRotAfter.pathExists (PASSWD_FILE ++ "+") = false
    ∧ fsRotAfter.pathExists SHADOW_FILE = false
    ∧ fsRotAfter.pathExists GROUP_FILE = false
    ∧ fsRotAfter.pathExists GSHADOW_FILE = false := by
  refine ⟨by decide, by decide, by decide, by decide, by decide, by decide, by decide⟩

/-- C2: acquiring the full lock on a clean state and then releasing it
leaves `/etc/passwd.lock` behind: `unlock()`'s `_unlock_file` opens
`/etc/passwd` itself instead of the lock file, fails to parse its contents
as a pid, and the resulting exception (swallowed by `unlock()`) skips the
`unlink`.  This contradicts the claimed residue-free postcondition (and
tests/test_shadow.py:21-33). -/
theorem unlock_leaves_passwd_lock_file :
    sdLockAcquire alivePid 1234 0 sdLockInit fsBase = (fsAfterLock, .ok stAfterLock)
    ∧ (sdUnlock 1234 stAfterLock fsAfterLock).1 = fsAfterLock
    ∧ fsAfterLock.pathExists (PASSWD_FILE ++ ".lock") = true := by
  refine ⟨by decide, by decide, by decide⟩

/-- C3: a successful `lock()` with `LOCK_ALL` creates a `.lock` file for
`/etc/passwd` only: `_lock_file_immediate` starts with
`if self.lock_count > 0: self.lock_count += 1; return`, and the counter is
shared across the four per-file calls, so the group, gshadow and shadow
files are never actually locked — contradicting the claim that a
`<file>.lock` with the caller's pid exists for every one of the four
files. -/
theorem lock_all_creates_only_passwd_lock :
    sdLockAcquire alivePid 1234 0 sdLockInit fsBase = (fsAfterLock, .ok stAfterLock)
    ∧ fsAfterLock.readFile (PASSWD_FILE ++ ".lock") = some "1234"
    ∧ fsAfterLock.pathExists (GROUP_FILE ++ ".lock") = false
    ∧ fsAfterLock.pathExists (GSHADOW_FILE ++ ".lock") = false
    ∧ fsAfterLock.pathExists (SHADOW_FILE ++ ".lock") = false := by
  refine ⟨by decide, by decide, by decide, by decide, by decide⟩

/-- C4: `_write_user`'s shadow line for the S2 record carries only eight
colon-separated pieces; the `password_disable_days` value (50) appears
nowhere in it and the expire days (47483) sit in the seventh field, where
the claimed nine-field layout places the inactive field — the writer omits
`password_disable_days` despite its own format comment. -/
theorem shadow_line_omits_disable_days :
    writeUserShadowLine userS2 = "testload:!!:11323:10:2000::47483:\n"
    ∧ (pySplit (writeUserShadowLine userS2) ':').length = 8
    ∧ (pySplit (writeUserShadowLine userS2) ':').contains "50" = false
    ∧ optIntStr userS2.passwordDisableDays = "50"
    ∧ userS2.accountExpireDate = some 47483 := by
  refine ⟨by decide, by decide, by decide, by decide, by decide⟩

/-- C5: loading the S2 passwd and shadow entries, whose numeric fields are
plain decimals, produces a record with every policy field absent and
`modified` spuriously true: `NUMERIC_FIELD_PATTERN` (compiled from the
literal `"r[+-]?[0-9]*$"`) rejects `"11323"` and every other decimal, so
the loader nulls each field instead of parsing it.  (For reference, under
a correct parse 11323 days is 2001-01-01 and 47483 days is 2100-01-02 —
day 47482, not 47483, is 2100-01-01.) -/
theorem shadow_decimal_fields_load_as_absent :
    (loadPasswdFile passwdS2 emptyDB).bind (loadShadowFile shadowS2)
      = .ok ⟨[userS2Loaded], [], []⟩
    ∧ numericFieldMatch "11323" = false
    ∧ userS2Loaded.lastPasswordChangeDate = none
    ∧ userS2Loaded.passwordAgeMinDays = none
    ∧ userS2Loaded.passwordAgeMaxDays = none
    ∧ userS2Loaded.passwordDisableDays = none
    ∧ userS2Loaded.accountExpireDate = none
    ∧ userS2Loaded.modified = true
    ∧ dateFromIso "2001-01-01" = some 11323
    ∧ dateFromIso "2100-01-01" = some 47482
    ∧ dateFromIso "2100-01-02" = some 47483 := by
  refine ⟨by decide, by decide, by decide, by decide, by decide, by decide, by decide,
    by decide, by decide, by decide, by decide⟩

/-- C8: loading a group line giving `g1` the member set `{alice}` and then
a gshadow line with well-formed member set `{bob}` marks the group
modified but leaves its stored members at `{alice}`: the union computed by
`group.members.update(members)` lands in the fresh copy returned by the
getter (heap cell 4) while the group still references cell 2 — the
members never become the claimed union `{alice, bob}`. -/
theorem gshadow_member_union_is_lost :
    (loadGroupFile groupLineC8 emptyDB).bind (loadGshadowFile gshadowLineC8)
      = .ok dbC8After
    ∧ groupMembersVal dbC8After.heap gC8 = {"alice"}
    ∧ gC8.modified = true
    ∧ ({"alice"} ∪ {"bob"} : PySet) = {"alice", "bob"}
    ∧ groupMembersVal dbC8After.heap gC8 ≠ ({"alice", "bob"} : PySet) := by
  refine ⟨by decide, by decide, by decide, by decide, by decide⟩

theorem except_bind_ok {ε α β : Type} (a : α) (f : α → Except ε β) :
    (Except.ok a >>= f : Except ε β) = f a := rfl

/-- C9: updating an unmodified `User` from a snapshot item whose slots all
carry the record's current values (date slots carrying strings that parse
to the record's dates) succeeds, changes no field, leaves `modified`
false, and returns false. -/
theorem update_from_equal_item_is_noop (u : User) (lc ae : Option String)
    (hmod : u.modified = false)
    (hlc : dateFromStringE lc = .ok u.lastPasswordChangeDate)
    (hae : dateFromStringE ae = .ok u.accountExpireDate) :
    updateFromDynamodbItem u
      { userName := u.userName, uid := u.uid, gid := u.gid, realName := u.realName,
        home := u.home, shell := u.shell, password := u.password,
        lastPasswordChangeDate := lc, passwordAgeMinDays := u.passwordAgeMinDays,
        passwordAgeMaxDays := u.passwordAgeMaxDays,
        passwordWarnDays := u.passwordWarnDays,
        passwordDisableDays := u.passwordDisableDays, accountExpireDate := ae }
      = .ok (u, false) := by
  simp [updateFromDynamodbItem, hlc, hae, hmod, except_bind_ok]

/-- C9 witness: the S2 record (modified = false) updated from the item
carrying exactly its values is returned unchanged with result false. -/
theorem update_from_equal_item_is_noop_witness :
    userS2.modified = false
    ∧ updateFromDynamodbItem userS2
        { userName := userS2.userName, uid := userS2.uid, gid := userS2.gid,
          realName := userS2.realName, home := userS2.home, shell := userS2.shell,
          password := userS2.password, lastPasswordChangeDate := some "2001-01-01",
          passwordAgeMinDays := userS2.passwordAgeMinDays,
          passwordAgeMaxDays := userS2.passwordAgeMaxDays,
          passwordWarnDays := userS2.passwordWarnDays,
          passwordDisableDays := userS2.passwordDisableDays,
          accountExpireDate := some "2100-01-02" }
        = .ok (userS2, false) :=
  ⟨by decide,
   update_from_equal_item_is_noop userS2 (some "2001-01-01") (some "2100-01-02")
     (by decide) (by decide) (by decide)⟩

/-- C7 counterexample: with `/etc/passwd.lock` present but holding the
unparseable contents `garbage`, per-file acquisition does NOT unlink the
lock file and retry the link — it fails with `OSError(EIO)`
(shadow.py:700-701) and leaves the lock file exactly as found. -/
theorem unparseable_lock_not_healed :
    lockFileImmediate alivePid 1234 sdLockInit fsC7 PASSWD_FILE = (fsC7, .error .eio)
    ∧ fsC7.readFile (PASSWD_FILE ++ ".lock") = some "garbage"
    ∧ parseLockPid "garbage" = none := by
  refine ⟨by decide, by decide, by decide⟩

/-- C7 (amended): during per-file lock acquisition, if hard-linking
`<file>.lock` fails with EEXIST and the existing lock file does not parse
as a positive integer pid, the implementation raises `OSError(EIO)` and
the acquisition fails: the lock file is not unlinked, the link is not
retried, and the filesystem is left exactly as found (the transient pid
file removed again).  Only a lock file holding a positive pid is ever
considered for the dead-holder unlink path. -/
theorem unparseable_lock_raises_eio (alive : Int → Bool) (pid : Nat) (st : SDLock)
    (fs : FS) (filename c : String)
    (hcount : st.lockCount = 0)
    (hwf : fs.wf = true)
    (hlock : fs.readFile (filename ++ ".lock") = some c)
    (hparse : parseLockPid c = none)
    (hpidfree : fs.pathExists (filename ++ "." ++ toString pid) = false) :
    lockFileImmediate alive pid st fs filename = (fs, .error .eio) := by
  have hfindP : fs.findIno (filename ++ "." ++ toString pid) = none := by
    unfold FS.pathExists at hpidfree
    exact Option.not_isSome_iff_eq_none.mp (by simp [hpidfree])
  have hfindPnone : fs.entries.find? (fun e => e.1 == filename ++ "." ++ toString pid)
      = none := by
    unfold FS.findIno at hfindP
    exact Option.map_eq_none'.mp hfindP
  obtain ⟨iL, hL, hLC⟩ : ∃ iL, fs.findIno (filename ++ ".lock") = some iL
      ∧ ((fs.inodes.find? fun e => e.1 == iL).map Prod.snd) = some c := by
    unfold FS.readFile at hlock
    cases h : fs.findIno (filename ++ ".lock") with
    | none => rw [h] at hlock; simp at hlock
    | some iL => rw [h] at hlock; exact ⟨iL, rfl, hlock⟩
  obtain ⟨eL, hEL, hELsnd⟩ : ∃ eL, fs.entries.find? (fun e => e.1 == filename ++ ".lock")
      = some eL ∧ eL.2 = iL := by
    unfold FS.findIno at hL
    cases h : fs.entries.find? fun e => e.1 == filename ++ ".lock" with
    | none => rw [h] at hL; simp at hL
    | some eL => rw [h] at hL; exact ⟨eL, rfl, by simpa using hL⟩
  obtain ⟨prL, hPR, hPRsnd⟩ : ∃ prL, fs.inodes.find? (fun e => e.1 == iL) = some prL
      ∧ prL.2 = c := by
    cases h : fs.inodes.find? fun e => e.1 == iL with
    | none => rw [h] at hLC; simp at hLC
    | some prL => rw [h] at hLC; exact ⟨prL, rfl, by simpa using hLC⟩
  have hentbound : ∀ e ∈ fs.entries, e.2 < fs.freshIno := by
    intro e he
    have hany := (List.all_eq_true.mp hwf) e he
    obtain ⟨ino, hino, hbeq⟩ := List.any_eq_true.mp hany
    have : ino.1 = e.2 := by simpa using hbeq
    have hmem : e.2 ∈ fs.inodes.map Prod.fst := this ▸ List.mem_map_of_mem Prod.fst hino
    exact Nat.lt_succ_of_le (lmem_le_foldr_max hmem)
  have hinobound : ∀ ino ∈ fs.inodes, ino.1 < fs.freshIno := by
    intro ino hino
    exact Nat.lt_succ_of_le (lmem_le_foldr_max (List.mem_map_of_mem Prod.fst hino))
  -- the state after steps 1-2 (pid file created, pid written)
  have hfs1 : fs.createWrite (filename ++ "." ++ toString pid) (toString pid)
      = ⟨fs.entries ++ [(filename ++ "." ++ toString pid, fs.freshIno)],
         fs.inodes ++ [(fs.freshIno, toString pid)]⟩ := by
    simp [FS.createWrite, hfindP]
  -- the lock file in the augmented state
  have hfind1L : FS.findIno
      ⟨fs.entries ++ [(filename ++ "." ++ toString pid, fs.freshIno)],
       fs.inodes ++ [(fs.freshIno, toString pid)]⟩ (filename ++ ".lock") = some iL := by
    simp only [FS.findIno, List.find?_append, hEL, Option.or_some]
    simp [hELsnd]
  have hread1L : FS.readFile
      ⟨fs.entries ++ [(filename ++ "." ++ toString pid, fs.freshIno)],
       fs.inodes ++ [(fs.freshIno, toString pid)]⟩ (filename ++ ".lock") = some c := by
    simp only [FS.readFile, hfind1L, Option.some_bind, List.find?_append, hPR,
      Option.or_some]
    simp [hPRsnd]
  -- the body fails with EIO after the EEXIST link failure and the failed parse
  have hbody : lockBody alive (filename ++ "." ++ toString pid) (filename ++ ".lock")
      ⟨fs.entries ++ [(filename ++ "." ++ toString pid, fs.freshIno)],
       fs.inodes ++ [(fs.freshIno, toString pid)]⟩
      = (⟨fs.entries ++ [(filename ++ "." ++ toString pid, fs.freshIno)],
          fs.inodes ++ [(fs.freshIno, toString pid)]⟩, .error .eio) := by
    have hex : FS.pathExists
        ⟨fs.entries ++ [(filename ++ "." ++ toString pid, fs.freshIno)],
         fs.inodes ++ [(fs.freshIno, toString pid)]⟩ (filename ++ ".lock") = true := by
      simp [FS.pathExists, hfind1L]
    simp only [lockBody, FS.link, hex, if_true, hread1L, hparse]
    simp
  -- the `finally` unlink of the pid file restores `fs` exactly
  have hdrop : FS.unlinkIgnore
      ⟨fs.entries ++ [(filename ++ "." ++ toString pid, fs.freshIno)],
       fs.inodes ++ [(fs.freshIno, toString pid)]⟩ (filename ++ "." ++ toString pid)
      = fs := by
    have hfind1P : FS.findIno
        ⟨fs.entries ++ [(filename ++ "." ++ toString pid, fs.freshIno)],
         fs.inodes ++ [(fs.freshIno, toString pid)]⟩ (filename ++ "." ++ toString pid)
        = some fs.freshIno := by
      simp [FS.findIno, List.find?_append, hfindPnone, Option.none_or]
    have hfe : fs.entries.filter
        (fun e => e.1 != filename ++ "." ++ toString pid) = fs.entries := by
      apply List.filter_eq_self.mpr
      intro e he
      have := List.find?_eq_none.mp hfindPnone e he
      simpa [bne_iff_ne] using fun hEq => this (by simp [hEq])
    have hforphan : fs.entries.filter (fun e => e.2 == fs.freshIno) = [] := by
      apply List.filter_eq_nil_iff.mpr
      intro e he
      have := hentbound e he
      simp [Nat.ne_of_lt this]
    have hfi : fs.inodes.filter (fun e => e.1 != fs.freshIno) = fs.inodes := by
      apply List.filter_eq_self.mpr
      intro ino hino
      have := hinobound ino hino
      simp [bne_iff_ne, Nat.ne_of_lt this]
    simp only [FS.unlinkIgnore, FS.dropEntry, hfind1P, List.filter_append, hfe,
      bne_self_eq_false, List.filter_cons_of_neg, List.filter_nil, List.append_nil,
      hforphan, List.isEmpty_nil, if_true, beq_self_eq_true, hfi]
    simp [hforphan]
  -- assemble
  simp only [lockFileImmediate, hcount, gt_iff_lt, Nat.lt_irrefl, if_false, hfs1,
    hbody, hdrop]

/-- C7 witness (for the amended claim): applying the theorem to the
concrete state `fsC7` whose lock file holds `garbage`. -/
theorem unparseable_lock_raises_eio_witness :
    fsC7.wf = true
    ∧ lockFileImmediate alivePid 1234 sdLockInit fsC7 PASSWD_FILE = (fsC7, .error .eio) :=
  ⟨by decide,
   unparseable_lock_raises_eio alivePid 1234 sdLockInit fsC7 PASSWD_FILE "garbage"
     (by decide) (by decide) (by decide) (by decide) (by decide)⟩

/-- A single acquisition attempt on the state `reload()` leaves behind
(`/etc/passwd.lock` still naming the live caller) fails with EAGAIN and
restores the filesystem exactly: the pid file is created and removed, and
the stale lock is seen to belong to a live pid. -/
theorem lock_attempt_on_residue_eagain :
    lockFileImmediate alivePid 1234
      { items := LOCK_ALL, lockCount := 0, lckpwdfFd := some (-1) } fsAfterLock PASSWD_FILE
      = (fsAfterLock, .error .eagain) := by decide

/-- However much fuel the retry loop is given, acquisition keeps failing
with EAGAIN on that state (the source, with `timeout = None`, sleeps and
retries forever). -/
theorem lock_retry_on_residue_eagain (fuel : Nat) :
    lockFileRetry alivePid 1234 false fuel
      { items := LOCK_ALL, lockCount := 0, lckpwdfFd := some (-1) } fsAfterLock PASSWD_FILE
      = (fsAfterLock, .error .eagain) := by
  induction fuel with
  | zero => decide
  | succ k ih =>
    rw [lockFileRetry, lock_attempt_on_residue_eagain]
    exact ih

/-- `lock()` on the residue state fails with EAGAIN for any fuel: the
first per-file acquisition spins on the leftover `/etc/passwd.lock` and
the error propagates after the rollback releases the tier-1 lock. -/
theorem acquire_on_residue_eagain (fuel : Nat) :
    sdLockAcquire alivePid 1234 fuel sdLockInit fsAfterLock
      = (fsAfterLock, .error .eagain) := by
  have h := lock_retry_on_residue_eagain fuel
  simp only [sdLockAcquire, sdLckpwdf, sdLockInit, sdLockGo, lockOrder,
    Option.isSome_none, Bool.false_eq_true, if_false, h]
  rfl

/-- C6: the round trip `reload(); write(); reload()` never reaches the
second reload.  The first `reload()` succeeds but leaves
`/etc/passwd.lock` behind (its `unlock()` opens `/etc/passwd` instead of
the lock file and the failure is swallowed); `write()` then finds a lock
naming the caller's own live pid and, with `timeout = None`, retries with
EAGAIN forever — modelled by every fuel value ending in `EAGAIN` with the
filesystem unchanged.  The records are never rewritten and no second
reload can be compared, against the claim that the sequence reproduces the
first reload's records with `modified` false. -/
theorem round_trip_write_never_completes :
    shadowDbReload alivePid 1234 0 fsBase = (fsAfterLock, .ok dbAfterReload)
    ∧ fsAfterLock.pathExists (PASSWD_FILE ++ ".lock") = true
    ∧ ∀ fuel, shadowDbWrite alivePid 1234 fuel dbAfterReload fsAfterLock
        = (fsAfterLock, .error .eagain) := by
  refine ⟨by decide, by decide, fun fuel => ?_⟩
  have h := acquire_on_residue_eagain fuel
  simp only [shadowDbWrite, h]
